import Mathlib

/-!
Shallow embedding of the scheduler-monitoring service
(`src/common/entities`, `src/modules/schedulers`, `src/infrastructure`).

Times are modelled as integer milliseconds since the epoch (`Millis`);
the source stores ISO-8601 UTC strings, whose lexicographic order agrees
with the numeric order of the instants they denote, so DynamoDB string
comparisons on timestamps are modelled as integer comparisons.
Metadata bags are modelled as association lists of strings.
-/

namespace SchedulerMonitoring

/-- `SchedulerStatus` enum from `scheduler-status.enum.ts`. -/
inductive SchedulerStatus
  | pending
  | running
  | completed
  | failed
deriving DecidableEq, Repr

abbrev Millis := Int

abbrev Metadata := List (String × String)

/-- The `Scheduler` entity from `scheduler.entity.ts`: one row per monitored
job. Optional TS fields are `Option`s. -/
structure Scheduler where
  scheduler_id : String
  service_name : String
  job_name : String
  status : SchedulerStatus
  timestamp : Millis
  execution_time_ms : Option Nat := none
  error_message : Option String := none
  metadata : Option Metadata := none
  last_heartbeat : Option Millis := none
  created_at : Millis
  updated_at : Millis
  owner_email : Option String := none
  alert_user_id : Option String := none
deriving DecidableEq, Repr

/-- `DynamoDBSchedulerRepository.findById`: `get` by primary key, modelled as
first match by `scheduler_id` in the table's row list. -/
def findById (rows : List Scheduler) (schedulerId : String) : Option Scheduler :=
  rows.find? (fun s => s.scheduler_id == schedulerId)

/-- `DynamoDBSchedulerRepository.findStaleSchedulers`: a `scan` with filter
`#status = :running AND last_heartbeat < :threshold` where
`threshold = now - timeoutMinutes` minutes. A DynamoDB comparison on a
missing attribute is false, so rows without `last_heartbeat` never pass
the filter; the `match` below models exactly that. -/
def findStaleSchedulers (now : Millis) (timeoutMinutes : Int)
    (rows : List Scheduler) : List Scheduler :=
  let thresholdTime := now - timeoutMinutes * 60 * 1000
  rows.filter (fun s =>
    s.status == SchedulerStatus.running &&
      match s.last_heartbeat with
      | some hb => decide (hb < thresholdTime)
      | none => false)

/-- C1: a scheduler is in the stale list iff it is in the table, its status is
`running`, its `last_heartbeat` is present, and `now - last_heartbeat`
exceeds `timeoutMinutes` (converted to milliseconds); in particular a row
with no `last_heartbeat` never appears in the stale list. -/
theorem claim_C1_staleness_iff (now : Millis) (t : Int)
    (rows : List Scheduler) (s : Scheduler) :
    s ∈ findStaleSchedulers now t rows ↔
      s ∈ rows ∧ s.status = SchedulerStatus.running ∧
        ∃ hb, s.last_heartbeat = some hb ∧ now - hb > t * 60 * 1000 := by
  simp only [findStaleSchedulers, List.mem_filter, Bool.and_eq_true, beq_iff_eq]
  constructor
  · rintro ⟨hmem, hstat, hhb⟩
    refine ⟨hmem, hstat, ?_⟩
    cases h : s.last_heartbeat with
    | none => rw [h] at hhb; simp at hhb
    | some hb =>
      rw [h] at hhb
      simp only [decide_eq_true_eq] at hhb
      exact ⟨hb, rfl, by linarith⟩
  · rintro ⟨hmem, hstat, hb, hhb, hgt⟩
    refine ⟨hmem, hstat, ?_⟩
    rw [hhb]
    simp only [decide_eq_true_eq]
    linarith

/-- A partial update as passed to `DynamoDBSchedulerRepository.update`:
each field is `none` when the corresponding key of the TS `Partial<Scheduler>`
object is `undefined` (in which case `update` skips it — the stored value is
kept), and `some v` when the caller supplied a value. `scheduler_id` and
`created_at` are never part of an update in the service. -/
structure SchedulerUpdate where
  service_name : Option String := none
  job_name : Option String := none
  status : Option SchedulerStatus := none
  timestamp : Option Millis := none
  execution_time_ms : Option Nat := none
  error_message : Option String := none
  metadata : Option Metadata := none
  last_heartbeat : Option Millis := none
  owner_email : Option String := none
  alert_user_id : Option String := none
deriving DecidableEq, Repr

/-- Effect of `DynamoDBSchedulerRepository.update` on one row: every defined
field of the update is SET, undefined fields are left as stored (the update
expression never mentions them), and `updated_at` is always SET to `now`. -/
def applyUpdate (now : Millis) (u : SchedulerUpdate) (r : Scheduler) : Scheduler :=
  { r with
    service_name := u.service_name.getD r.service_name
    job_name := u.job_name.getD r.job_name
    status := u.status.getD r.status
    timestamp := u.timestamp.getD r.timestamp
    execution_time_ms := u.execution_time_ms.or r.execution_time_ms
    error_message := u.error_message.or r.error_message
    metadata := u.metadata.or r.metadata
    last_heartbeat := u.last_heartbeat.or r.last_heartbeat
    owner_email := u.owner_email.or r.owner_email
    alert_user_id := u.alert_user_id.or r.alert_user_id
    updated_at := now }

/-- `DynamoDBSchedulerRepository.update` over the whole table (the service
only calls it for keys it has just found, so the DynamoDB upsert-on-missing
behaviour is never exercised). -/
def repoUpdate (now : Millis) (schedulerId : String) (u : SchedulerUpdate)
    (rows : List Scheduler) : List Scheduler :=
  rows.map (fun s => if s.scheduler_id == schedulerId then applyUpdate now u s else s)

/-- `DynamoDBSchedulerRepository.updateHeartbeat`:
`SET last_heartbeat = :timestamp, updated_at = :timestamp` with one shared
`now`, touching nothing else. -/
def repoUpdateHeartbeat (now : Millis) (schedulerId : String)
    (rows : List Scheduler) : List Scheduler :=
  rows.map (fun s =>
    if s.scheduler_id == schedulerId then
      { s with last_heartbeat := some now, updated_at := now }
    else s)

/-- The `StatusHistory` entity from `status-history.entity.ts`. The `id`
(a UUID generated at write time, never read back by the service logic)
is not modelled. -/
structure StatusHistory where
  scheduler_id : String
  status : SchedulerStatus
  timestamp : Millis
  execution_time_ms : Option Nat := none
  error_message : Option String := none
  metadata : Option Metadata := none
deriving DecidableEq, Repr

/-- `SchedulerService.createStatusHistory`: the history entry is a snapshot of
the just-updated scheduler's fields. -/
def historyOf (s : Scheduler) : StatusHistory :=
  { scheduler_id := s.scheduler_id
    status := s.status
    timestamp := s.timestamp
    execution_time_ms := s.execution_time_ms
    error_message := s.error_message
    metadata := s.metadata }

/-- Durable state seen by `SchedulerService`: the schedulers table and the
append-ordered status-history table. -/
structure ServiceState where
  schedulers : List Scheduler
  history : List StatusHistory
deriving DecidableEq, Repr

/-- Error outcomes surfaced by the service operations: `notFound` models the
`NotFoundException` thrown for unknown ids, `deliveryFailure` a rethrown
Slack client error. -/
inductive ServiceError
  | notFound
  | deliveryFailure
deriving DecidableEq, Repr

/-- `RegisterSchedulerDto`. -/
structure RegisterSchedulerDto where
  scheduler_id : String
  service_name : String
  job_name : String
  owner_email : Option String := none
  alert_user_id : Option String := none
deriving DecidableEq, Repr

/-- `UpdateStatusDto` (its `timestamp` is an ISO string parsed with
`new Date(...)`, modelled directly as an instant). -/
structure UpdateStatusDto where
  scheduler_id : String
  service_name : String
  job_name : String
  status : SchedulerStatus
  timestamp : Millis
  execution_time_ms : Option Nat := none
  error_message : Option String := none
  metadata : Option Metadata := none
deriving DecidableEq, Repr

/-- `SchedulerService.registerScheduler`: if a record exists, partial-update
only the descriptive fields (absent optionals are skipped by the repository);
otherwise create a fresh record with status `pending` and current timestamps
(`DynamoDBSchedulerRepository.create` stamps `created_at`/`updated_at` with
its own `now`). Returns the new state and the returned scheduler; the
operation has no failure outcome. -/
def registerScheduler (now : Millis) (dto : RegisterSchedulerDto)
    (st : ServiceState) : ServiceState × Scheduler :=
  match findById st.schedulers dto.scheduler_id with
  | some r =>
    let u : SchedulerUpdate :=
      { service_name := some dto.service_name
        job_name := some dto.job_name
        owner_email := dto.owner_email
        alert_user_id := dto.alert_user_id }
    ({ st with schedulers := repoUpdate now dto.scheduler_id u st.schedulers },
      applyUpdate now u r)
  | none =>
    let s : Scheduler :=
      { scheduler_id := dto.scheduler_id
        service_name := dto.service_name
        job_name := dto.job_name
        status := SchedulerStatus.pending
        timestamp := now
        created_at := now
        updated_at := now
        owner_email := dto.owner_email
        alert_user_id := dto.alert_user_id }
    ({ st with schedulers := st.schedulers ++ [s] }, s)

/-- The `Partial<Scheduler>` built inside `SchedulerService.updateStatus`:
all seven report fields are copied from the DTO (absent optionals stay
`undefined` and are therefore skipped by the repository), and
`last_heartbeat` is set to the current time. -/
def updatesOf (now : Millis) (dto : UpdateStatusDto) : SchedulerUpdate :=
  { service_name := some dto.service_name
    job_name := some dto.job_name
    status := some dto.status
    timestamp := some dto.timestamp
    execution_time_ms := dto.execution_time_ms
    error_message := dto.error_message
    metadata := dto.metadata
    last_heartbeat := some now }

/-- `SchedulerService.updateStatus`. `notifyOk` is the outcome of the Slack
`sendFailedJobAlert` call (which rethrows client errors): when the DTO status
is `failed` and that call throws, the exception propagates out of
`updateStatus` after the record update and the history append have already
been persisted. Returns the state after the call together with the call's
outcome. -/
def updateStatus (now : Millis) (notifyOk : Bool) (dto : UpdateStatusDto)
    (st : ServiceState) : ServiceState × Except ServiceError Scheduler :=
  match findById st.schedulers dto.scheduler_id with
  | none => (st, Except.error ServiceError.notFound)
  | some r =>
    let updated := applyUpdate now (updatesOf now dto) r
    let st' : ServiceState :=
      { schedulers := repoUpdate now dto.scheduler_id (updatesOf now dto) st.schedulers
        history := st.history ++ [historyOf updated] }
    let outcome : Except ServiceError Scheduler :=
      if dto.status = SchedulerStatus.failed then
        if notifyOk then Except.ok updated
        else Except.error ServiceError.deliveryFailure
      else Except.ok updated
    (st', outcome)

/-- `SchedulerService.updateHeartbeat`: `NotFound` for unknown ids, otherwise
delegate to the repository heartbeat update. -/
def updateHeartbeat (now : Millis) (schedulerId : String)
    (st : ServiceState) : ServiceState × Except ServiceError Unit :=
  match findById st.schedulers schedulerId with
  | none => (st, Except.error ServiceError.notFound)
  | some _ =>
    ({ st with schedulers := repoUpdateHeartbeat now schedulerId st.schedulers },
      Except.ok ())

/-- `SchedulerService.getScheduler`. -/
def getScheduler (st : ServiceState) (schedulerId : String) :
    Except ServiceError Scheduler :=
  match findById st.schedulers schedulerId with
  | none => Except.error ServiceError.notFound
  | some s => Except.ok s

/-- `SchedulerService.getSchedulerHistory`: delegates straight to
`DynamoDBStatusHistoryRepository.findBySchedulerId` (a key query returning
the most recent entries first, limit defaulting to 50) with no existence
check on the scheduler id — it has no `NotFound` outcome. -/
def getSchedulerHistory (st : ServiceState) (schedulerId : String)
    (limit : Option Nat) : Except ServiceError (List StatusHistory) :=
  Except.ok
    (((st.history.filter (fun e => e.scheduler_id == schedulerId)).reverse).take
      (limit.getD 50))

/-- `Scheduler.isCompleted` from the entity. -/
def Scheduler.isCompleted (s : Scheduler) : Bool :=
  s.status == SchedulerStatus.completed

/-- Outcomes of the external Slack/repository calls made by one
`SlackWorkerService.sendFinalStatusSummary` run: the repository
`findAll` scan, the `updateStatusTable` edit of the held message, and the
`sendAllClearSummary` post. `Except.error` models a thrown exception. -/
structure FinalSummaryEnv where
  fetchResult : Except Unit (List Scheduler)
  editResult : Except Unit Unit
  allClearResult : Except Unit Unit

/-- Result of one `sendFinalStatusSummary` run: the `currentMessageTs`
field afterwards, and whether `sendAllClearSummary` was invoked. -/
structure FinalSummaryOutcome where
  handle : Option String
  allClearInvoked : Bool
deriving DecidableEq, Repr

/-- `SlackWorkerService.sendFinalStatusSummary` (the 06:00 window-close
trigger). The body runs inside a single try/catch whose catch only logs, and
the `this.currentMessageTs = null` reset is the last statement INSIDE the
try: any thrown step skips it, leaving the held handle as it was. The
early return when the notification service is disabled also skips it. -/
def sendFinalStatusSummary (enabled : Bool) (env : FinalSummaryEnv)
    (handle : Option String) : FinalSummaryOutcome :=
  if !enabled then { handle := handle, allClearInvoked := false }
  else
    match env.fetchResult with
    | Except.error _ => { handle := handle, allClearInvoked := false }
    | Except.ok schedulers =>
      let editStep : Except Unit Unit :=
        match handle with
        | some _ => env.editResult
        | none => Except.ok ()
      match editStep with
      | Except.error _ => { handle := handle, allClearInvoked := false }
      | Except.ok _ =>
        let allCompleted := schedulers.all (fun s => s.isCompleted)
        if allCompleted && decide (0 < schedulers.length) then
          match env.allClearResult with
          | Except.error _ => { handle := handle, allClearInvoked := true }
          | Except.ok _ => { handle := none, allClearInvoked := true }
        else { handle := none, allClearInvoked := false }

/-- Count-by-status summary built by
`SlackNotificationService.buildStatusSummary`. -/
structure StatusSummary where
  pendingCount : Nat
  runningCount : Nat
  completedCount : Nat
  failedCount : Nat
deriving DecidableEq, Repr

/-- `SlackNotificationService.buildStatusSummary`: fold over the list
incrementing the bucket of each scheduler's status. -/
def buildStatusSummary (schedulers : List Scheduler) : StatusSummary :=
  schedulers.foldl
    (fun acc s =>
      match s.status with
      | SchedulerStatus.pending => { acc with pendingCount := acc.pendingCount + 1 }
      | SchedulerStatus.running => { acc with runningCount := acc.runningCount + 1 }
      | SchedulerStatus.completed => { acc with completedCount := acc.completedCount + 1 }
      | SchedulerStatus.failed => { acc with failedCount := acc.failedCount + 1 })
    ⟨0, 0, 0, 0⟩

/-- One Slack block pushed by
`SlackNotificationService.buildStatusTableBlocks`, with each block shape as a
constructor carrying the data it renders (the dayjs timestamp formatting and
`formatExecutionTime` string formatting are kept as the raw values they
would format). -/
inductive Block
  | headerBlock (timestamp : Millis)
  | divider
  | summaryFields (summary : StatusSummary)
  | schedulerFields (serviceName jobName : String) (status : SchedulerStatus)
      (updatedAt : Millis)
  | executionTimeNote (ms : Nat)
  | legend
deriving DecidableEq, Repr

/-- The blocks pushed for one scheduler inside the `schedulers.forEach` of
`buildStatusTableBlocks`: the four-field section, then — guarded by the
JS truthiness test `if (scheduler.execution_time_ms)`, which is false both
for an absent value and for the number `0` — the execution-time context
block. -/
def schedulerRowBlocks (s : Scheduler) : List Block :=
  Block.schedulerFields s.service_name s.job_name s.status s.updated_at ::
    (match s.execution_time_ms with
    | some ms => if ms == 0 then [] else [Block.executionTimeNote ms]
    | none => [])

/-- `SlackNotificationService.buildStatusTableBlocks`: header, divider,
count-by-status summary, divider, per-scheduler rows, divider, legend. -/
def buildStatusTableBlocks (schedulers : List Scheduler)
    (timestamp : Millis) : List Block :=
  [Block.headerBlock timestamp, Block.divider,
    Block.summaryFields (buildStatusSummary schedulers), Block.divider] ++
    (schedulers.map schedulerRowBlocks).flatten ++
    [Block.divider, Block.legend]

/-! Helper lemmas about the repository operations. -/

theorem applyUpdate_scheduler_id (now : Millis) (u : SchedulerUpdate)
    (r : Scheduler) : (applyUpdate now u r).scheduler_id = r.scheduler_id := rfl

theorem findById_repoUpdate (now : Millis) (schedulerId : String)
    (u : SchedulerUpdate) (rows : List Scheduler) :
    findById (repoUpdate now schedulerId u rows) schedulerId =
      (findById rows schedulerId).map (applyUpdate now u) := by
  induction rows with
  | nil => rfl
  | cons head tail ih =>
    by_cases h : head.scheduler_id = schedulerId
    · simp [findById, repoUpdate, List.find?_cons, applyUpdate, h]
    · simp only [findById, repoUpdate, List.map_cons] at ih ⊢
      rw [if_neg (by simp [h])]
      rw [List.find?_cons_of_neg _ (by simp [h]), List.find?_cons_of_neg _ (by simp [h])]
      exact ih

theorem findById_repoUpdateHeartbeat (now : Millis) (schedulerId : String)
    (rows : List Scheduler) :
    findById (repoUpdateHeartbeat now schedulerId rows) schedulerId =
      (findById rows schedulerId).map
        (fun r => { r with last_heartbeat := some now, updated_at := now }) := by
  induction rows with
  | nil => rfl
  | cons head tail ih =>
    by_cases h : head.scheduler_id = schedulerId
    · simp [findById, repoUpdateHeartbeat, List.find?_cons, h]
    · simp only [findById, repoUpdateHeartbeat, List.map_cons] at ih ⊢
      rw [if_neg (by simp [h])]
      rw [List.find?_cons_of_neg _ (by simp [h]), List.find?_cons_of_neg _ (by simp [h])]
      exact ih

theorem mem_repoUpdate_of_ne (now : Millis) (schedulerId : String)
    (u : SchedulerUpdate) {s : Scheduler} {rows : List Scheduler}
    (hs : s ∈ rows) (hne : s.scheduler_id ≠ schedulerId) :
    s ∈ repoUpdate now schedulerId u rows := by
  unfold repoUpdate
  exact List.mem_map.2 ⟨s, hs, by simp [hne]⟩

theorem mem_repoUpdateHeartbeat_of_ne (now : Millis) (schedulerId : String)
    {s : Scheduler} {rows : List Scheduler}
    (hs : s ∈ rows) (hne : s.scheduler_id ≠ schedulerId) :
    s ∈ repoUpdateHeartbeat now schedulerId rows := by
  unfold repoUpdateHeartbeat
  exact List.mem_map.2 ⟨s, hs, by simp [hne]⟩

theorem findById_append_of_none (rows : List Scheduler) (s : Scheduler)
    (schedulerId : String) (h : findById rows schedulerId = none)
    (hid : s.scheduler_id = schedulerId) :
    findById (rows ++ [s]) schedulerId = some s := by
  unfold findById at h ⊢
  rw [List.find?_append, h]
  simp [List.find?_cons, hid]

/-! Concrete fixtures used by witnesses and counterexamples. -/

/-- A registered scheduler whose optional report fields are all populated. -/
def recA : Scheduler :=
  { scheduler_id := "svc-a-eod"
    service_name := "Service A"
    job_name := "EOD Processing"
    status := SchedulerStatus.running
    timestamp := 100
    execution_time_ms := some 5
    error_message := some "boom"
    metadata := some [("records_processed", "10")]
    last_heartbeat := some 90
    created_at := 0
    updated_at := 100 }

def stA : ServiceState := { schedulers := [recA], history := [] }

def stEmpty : ServiceState := { schedulers := [], history := [] }

/-- A status report for `recA` that omits every optional field. -/
def dtoNoOptionals : UpdateStatusDto :=
  { scheduler_id := "svc-a-eod"
    service_name := "Service A"
    job_name := "EOD Processing"
    status := SchedulerStatus.completed
    timestamp := 200 }

/-- A failed status report for `recA`. -/
def dtoFail : UpdateStatusDto :=
  { scheduler_id := "svc-a-eod"
    service_name := "Service A"
    job_name := "EOD Processing"
    status := SchedulerStatus.failed
    timestamp := 300
    error_message := some "timeout" }

/-- C2 counterexample: a `ReportStatus` call whose optional
`execution_time_ms`/`error_message`/`metadata` are absent does NOT clear the
stored values — the DynamoDB update expression skips `undefined` fields, so
the previously stored `some 5`/`"boom"`/metadata survive, contradicting the
claim that all seven fields are overwritten. -/
theorem claim_C2_counterexample :
    dtoNoOptionals.execution_time_ms = none ∧
    dtoNoOptionals.error_message = none ∧
    dtoNoOptionals.metadata = none ∧
    (findById (updateStatus 250 true dtoNoOptionals stA).1.schedulers
        "svc-a-eod").map (fun u => (u.execution_time_ms, u.error_message, u.metadata)) =
      some (some 5, some "boom", some [("records_processed", "10")]) :=
  ⟨rfl, rfl, rfl, rfl⟩

/-- C2 (amended): a successful `updateStatus` stores the supplied
`service_name`/`job_name`/`status`/`timestamp`, stores the optional
`execution_time_ms`/`error_message`/`metadata` when supplied but KEEPS the
previously stored values when they are absent, sets `last_heartbeat` to the
current time and `updated_at` to the current time, and never touches
`scheduler_id`/`created_at`. -/
theorem claim_C2_update_fields (now : Millis) (notifyOk : Bool)
    (dto : UpdateStatusDto) (st : ServiceState) (r : Scheduler)
    (h : findById st.schedulers dto.scheduler_id = some r) :
    ∃ u, findById (updateStatus now notifyOk dto st).1.schedulers
        dto.scheduler_id = some u ∧
      u.service_name = dto.service_name ∧
      u.job_name = dto.job_name ∧
      u.status = dto.status ∧
      u.timestamp = dto.timestamp ∧
      u.execution_time_ms = dto.execution_time_ms.or r.execution_time_ms ∧
      u.error_message = dto.error_message.or r.error_message ∧
      u.metadata = dto.metadata.or r.metadata ∧
      u.last_heartbeat = some now ∧
      u.updated_at = now ∧
      u.created_at = r.created_at ∧
      u.scheduler_id = r.scheduler_id := by
  refine ⟨applyUpdate now (updatesOf now dto) r, ?_,
    rfl, rfl, rfl, rfl, rfl, rfl, rfl, rfl, rfl, rfl, rfl⟩
  simp only [updateStatus, h]
  rw [findById_repoUpdate, h]
  rfl

/-- Witness for C2 (amended) at a concrete state and report. -/
theorem claim_C2_witness :
    ∃ u, findById (updateStatus 250 true dtoNoOptionals stA).1.schedulers
        dtoNoOptionals.scheduler_id = some u ∧
      u.service_name = dtoNoOptionals.service_name ∧
      u.job_name = dtoNoOptionals.job_name ∧
      u.status = dtoNoOptionals.status ∧
      u.timestamp = dtoNoOptionals.timestamp ∧
      u.execution_time_ms = dtoNoOptionals.execution_time_ms.or recA.execution_time_ms ∧
      u.error_message = dtoNoOptionals.error_message.or recA.error_message ∧
      u.metadata = dtoNoOptionals.metadata.or recA.metadata ∧
      u.last_heartbeat = some 250 ∧
      u.updated_at = 250 ∧
      u.created_at = recA.created_at ∧
      u.scheduler_id = recA.scheduler_id :=
  claim_C2_update_fields 250 true dtoNoOptionals stA recA rfl

/-- C3: a successful `updateStatus` appends exactly one history entry, a
snapshot whose fields are those of the just-applied scheduler record; a
`NotFound` report, a registration (either branch) and a heartbeat never
change the history. (`getScheduler`/`getAllSchedulers`/`getSchedulerHistory`
are pure reads of the state and cannot change it by construction.) -/
theorem claim_C3_history_append (now : Millis) (notifyOk : Bool)
    (dto : UpdateStatusDto) (st : ServiceState) (r : Scheduler)
    (h : findById st.schedulers dto.scheduler_id = some r) :
    (updateStatus now notifyOk dto st).1.history =
        st.history ++
          [{ scheduler_id := (applyUpdate now (updatesOf now dto) r).scheduler_id
             status := (applyUpdate now (updatesOf now dto) r).status
             timestamp := (applyUpdate now (updatesOf now dto) r).timestamp
             execution_time_ms := (applyUpdate now (updatesOf now dto) r).execution_time_ms
             error_message := (applyUpdate now (updatesOf now dto) r).error_message
             metadata := (applyUpdate now (updatesOf now dto) r).metadata }] ∧
    (∀ dto' : UpdateStatusDto, findById st.schedulers dto'.scheduler_id = none →
      (updateStatus now notifyOk dto' st).1.history = st.history) ∧
    (∀ rdto : RegisterSchedulerDto,
      (registerScheduler now rdto st).1.history = st.history) ∧
    (∀ schedulerId, (updateHeartbeat now schedulerId st).1.history = st.history) := by
  refine ⟨?_, ?_, ?_, ?_⟩
  · simp only [updateStatus, h]
    rfl
  · intro dto' h'
    simp [updateStatus, h']
  · intro rdto
    unfold registerScheduler
    cases hfind : findById st.schedulers rdto.scheduler_id <;> simp
  · intro schedulerId
    unfold updateHeartbeat
    cases hfind : findById st.schedulers schedulerId <;> simp

/-- Witness for C3 at a concrete state and report. -/
theorem claim_C3_witness :
    (updateStatus 250 true dtoNoOptionals stA).1.history =
        stA.history ++
          [{ scheduler_id := (applyUpdate 250 (updatesOf 250 dtoNoOptionals) recA).scheduler_id
             status := (applyUpdate 250 (updatesOf 250 dtoNoOptionals) recA).status
             timestamp := (applyUpdate 250 (updatesOf 250 dtoNoOptionals) recA).timestamp
             execution_time_ms := (applyUpdate 250 (updatesOf 250 dtoNoOptionals) recA).execution_time_ms
             error_message := (applyUpdate 250 (updatesOf 250 dtoNoOptionals) recA).error_message
             metadata := (applyUpdate 250 (updatesOf 250 dtoNoOptionals) recA).metadata }] ∧
    (∀ dto' : UpdateStatusDto, findById stA.schedulers dto'.scheduler_id = none →
      (updateStatus 250 true dto' stA).1.history = stA.history) ∧
    (∀ rdto : RegisterSchedulerDto,
      (registerScheduler 250 rdto stA).1.history = stA.history) ∧
    (∀ schedulerId, (updateHeartbeat 250 schedulerId stA).1.history = stA.history) :=
  claim_C3_history_append 250 true dtoNoOptionals stA recA rfl

/-- C4 counterexample: `getSchedulerHistory` performs no existence check —
on an id with no record it succeeds with the empty list instead of failing
with `NotFound`, refuting the claim for the History operation. -/
theorem claim_C4_counterexample :
    findById stEmpty.schedulers "missing-id" = none ∧
    getSchedulerHistory stEmpty "missing-id" none = Except.ok [] :=
  ⟨rfl, rfl⟩

/-- C4 (amended): on an id with no record, `updateStatus`, `updateHeartbeat`
and `getScheduler` fail with `NotFound` (and leave the state unchanged),
while `getSchedulerHistory` does not fail — it returns its (possibly empty)
query result. -/
theorem claim_C4_unknown_id (now : Millis) (notifyOk : Bool)
    (dto : UpdateStatusDto) (st : ServiceState) (lim : Option Nat)
    (h : findById st.schedulers dto.scheduler_id = none) :
    updateStatus now notifyOk dto st = (st, Except.error ServiceError.notFound) ∧
    updateHeartbeat now dto.scheduler_id st = (st, Except.error ServiceError.notFound) ∧
    getScheduler st dto.scheduler_id = Except.error ServiceError.notFound ∧
    ∃ entries, getSchedulerHistory st dto.scheduler_id lim = Except.ok entries := by
  refine ⟨?_, ?_, ?_, ⟨_, rfl⟩⟩ <;>
    simp [updateStatus, updateHeartbeat, getScheduler, h]

/-- Witness for C4 (amended) on the empty store. -/
theorem claim_C4_witness :
    updateStatus 10 true dtoNoOptionals stEmpty =
        (stEmpty, Except.error ServiceError.notFound) ∧
    updateHeartbeat 10 dtoNoOptionals.scheduler_id stEmpty =
        (stEmpty, Except.error ServiceError.notFound) ∧
    getScheduler stEmpty dtoNoOptionals.scheduler_id =
        Except.error ServiceError.notFound ∧
    ∃ entries, getSchedulerHistory stEmpty dtoNoOptionals.scheduler_id none =
        Except.ok entries :=
  claim_C4_unknown_id 10 true dtoNoOptionals stEmpty none rfl

/-- C5: registration is a total operation (its type has no failure outcome —
duplicate ids are not an error). When a record exists it updates only the
descriptive fields: `service_name`/`job_name` are overwritten,
`owner_email`/`alert_user_id` are overwritten when supplied and kept
otherwise, `updated_at` is stamped, and `status`, `timestamp`, the optional
report fields, `last_heartbeat`, `created_at` and the history are untouched.
When no record exists it creates one with status `pending` and current
timestamps. -/
theorem claim_C5_register_idempotent (now : Millis)
    (dto : RegisterSchedulerDto) (st : ServiceState) :
    (registerScheduler now dto st).1.history = st.history ∧
    (∀ r, findById st.schedulers dto.scheduler_id = some r →
      ∃ u, findById (registerScheduler now dto st).1.schedulers
          dto.scheduler_id = some u ∧
        u.status = r.status ∧
        u.timestamp = r.timestamp ∧
        u.execution_time_ms = r.execution_time_ms ∧
        u.error_message = r.error_message ∧
        u.metadata = r.metadata ∧
        u.last_heartbeat = r.last_heartbeat ∧
        u.created_at = r.created_at ∧
        u.scheduler_id = r.scheduler_id ∧
        u.service_name = dto.service_name ∧
        u.job_name = dto.job_name ∧
        u.owner_email = dto.owner_email.or r.owner_email ∧
        u.alert_user_id = dto.alert_user_id.or r.alert_user_id ∧
        u.updated_at = now) ∧
    (findById st.schedulers dto.scheduler_id = none →
      ∃ u, findById (registerScheduler now dto st).1.schedulers
          dto.scheduler_id = some u ∧
        u.status = SchedulerStatus.pending ∧
        u.timestamp = now ∧
        u.created_at = now ∧
        u.updated_at = now ∧
        u.service_name = dto.service_name ∧
        u.job_name = dto.job_name ∧
        u.owner_email = dto.owner_email ∧
        u.alert_user_id = dto.alert_user_id ∧
        u.execution_time_ms = none ∧
        u.error_message = none ∧
        u.metadata = none ∧
        u.last_heartbeat = none) := by
  refine ⟨?_, ?_, ?_⟩
  · unfold registerScheduler
    cases hfind : findById st.schedulers dto.scheduler_id <;> simp
  · intro r h
    refine ⟨applyUpdate now
        { service_name := some dto.service_name
          job_name := some dto.job_name
          owner_email := dto.owner_email
          alert_user_id := dto.alert_user_id } r, ?_,
      rfl, rfl, rfl, rfl, rfl, rfl, rfl, rfl, rfl, rfl, rfl, rfl, rfl⟩
    simp only [registerScheduler, h]
    rw [findById_repoUpdate, h]
    rfl
  · intro h
    simp only [registerScheduler, h]
    refine ⟨_, findById_append_of_none st.schedulers _ dto.scheduler_id h rfl,
      rfl, rfl, rfl, rfl, rfl, rfl, rfl, rfl, rfl, rfl, rfl, rfl⟩

/-- Witness for C5 at a concrete state, exercising the existing-record branch
with different descriptive fields. -/
theorem claim_C5_witness :
    (registerScheduler 400
        { scheduler_id := "svc-a-eod"
          service_name := "Service A2"
          job_name := "EOD v2" } stA).1.history = stA.history ∧
    (∀ r, findById stA.schedulers "svc-a-eod" = some r →
      ∃ u, findById (registerScheduler 400
          { scheduler_id := "svc-a-eod"
            service_name := "Service A2"
            job_name := "EOD v2" } stA).1.schedulers "svc-a-eod" = some u ∧
        u.status = r.status ∧
        u.timestamp = r.timestamp ∧
        u.execution_time_ms = r.execution_time_ms ∧
        u.error_message = r.error_message ∧
        u.metadata = r.metadata ∧
        u.last_heartbeat = r.last_heartbeat ∧
        u.created_at = r.created_at ∧
        u.scheduler_id = r.scheduler_id ∧
        u.service_name = "Service A2" ∧
        u.job_name = "EOD v2" ∧
        u.owner_email = Option.or none r.owner_email ∧
        u.alert_user_id = Option.or none r.alert_user_id ∧
        u.updated_at = 400) ∧
    (findById stA.schedulers "svc-a-eod" = none →
      ∃ u, findById (registerScheduler 400
          { scheduler_id := "svc-a-eod"
            service_name := "Service A2"
            job_name := "EOD v2" } stA).1.schedulers "svc-a-eod" = some u ∧
        u.status = SchedulerStatus.pending ∧
        u.timestamp = 400 ∧
        u.created_at = 400 ∧
        u.updated_at = 400 ∧
        u.service_name = "Service A2" ∧
        u.job_name = "EOD v2" ∧
        u.owner_email = none ∧
        u.alert_user_id = none ∧
        u.execution_time_ms = none ∧
        u.error_message = none ∧
        u.metadata = none ∧
        u.last_heartbeat = none) :=
  claim_C5_register_idempotent 400
    { scheduler_id := "svc-a-eod"
      service_name := "Service A2"
      job_name := "EOD v2" } stA

/-- C8 counterexample: with a registered scheduler, a failed-status report
whose Slack alert call throws makes `updateStatus` itself fail — the
notification failure IS propagated to the caller, contradicting the claim
that the call still completes and returns the updated scheduler. -/
theorem claim_C8_counterexample :
    dtoFail.status = SchedulerStatus.failed ∧
    findById stA.schedulers dtoFail.scheduler_id = some recA ∧
    (updateStatus 350 false dtoFail stA).2 =
      Except.error ServiceError.deliveryFailure :=
  ⟨rfl, rfl, rfl⟩

/-- C8 (amended): when a failed-status report's Slack alert throws, the
exception propagates out of `updateStatus` (the caller sees a delivery
failure, not the updated scheduler), but only after the record update and
the history append have taken effect; when the alert succeeds the call
returns the updated scheduler. -/
theorem claim_C8_delivery_propagates (now : Millis) (dto : UpdateStatusDto)
    (st : ServiceState) (r : Scheduler)
    (h : findById st.schedulers dto.scheduler_id = some r)
    (hfail : dto.status = SchedulerStatus.failed) :
    (updateStatus now false dto st).2 =
        Except.error ServiceError.deliveryFailure ∧
    (updateStatus now false dto st).1.schedulers =
        repoUpdate now dto.scheduler_id (updatesOf now dto) st.schedulers ∧
    (updateStatus now false dto st).1.history =
        st.history ++ [historyOf (applyUpdate now (updatesOf now dto) r)] ∧
    (updateStatus now true dto st).2 =
        Except.ok (applyUpdate now (updatesOf now dto) r) := by
  refine ⟨?_, ?_, ?_, ?_⟩ <;> simp [updateStatus, h, hfail, historyOf]

/-- Witness for C8 (amended) at a concrete failed report. -/
theorem claim_C8_witness :
    (updateStatus 350 false dtoFail stA).2 =
        Except.error ServiceError.deliveryFailure ∧
    (updateStatus 350 false dtoFail stA).1.schedulers =
        repoUpdate 350 dtoFail.scheduler_id (updatesOf 350 dtoFail) stA.schedulers ∧
    (updateStatus 350 false dtoFail stA).1.history =
        stA.history ++ [historyOf (applyUpdate 350 (updatesOf 350 dtoFail) recA)] ∧
    (updateStatus 350 true dtoFail stA).2 =
        Except.ok (applyUpdate 350 (updatesOf 350 dtoFail) recA) :=
  claim_C8_delivery_propagates 350 dtoFail stA recA rfl rfl

/-- C9: `updateHeartbeat` on an unknown id fails with `NotFound` and changes
nothing; on a registered id it succeeds, replaces the record by one that
differs only in `last_heartbeat` and `updated_at` (both set to `now`),
leaves every other record in place, and appends no history entry. -/
theorem claim_C9_heartbeat_frame (now : Millis) (schedulerId : String)
    (st : ServiceState) :
    (findById st.schedulers schedulerId = none →
      updateHeartbeat now schedulerId st =
        (st, Except.error ServiceError.notFound)) ∧
    (∀ r, findById st.schedulers schedulerId = some r →
      (updateHeartbeat now schedulerId st).2 = Except.ok () ∧
      findById (updateHeartbeat now schedulerId st).1.schedulers schedulerId =
        some { r with last_heartbeat := some now, updated_at := now } ∧
      (updateHeartbeat now schedulerId st).1.history = st.history ∧
      ∀ s ∈ st.schedulers, s.scheduler_id ≠ schedulerId →
        s ∈ (updateHeartbeat now schedulerId st).1.schedulers) := by
  constructor
  · intro h
    simp [updateHeartbeat, h]
  · intro r h
    refine ⟨?_, ?_, ?_, ?_⟩
    · simp [updateHeartbeat, h]
    · simp only [updateHeartbeat, h]
      rw [findById_repoUpdateHeartbeat, h]
      rfl
    · simp [updateHeartbeat, h]
    · intro s hs hne
      simp only [updateHeartbeat, h]
      exact mem_repoUpdateHeartbeat_of_ne now schedulerId hs hne

/-- Witness for C9 at a concrete registered scheduler. -/
theorem claim_C9_witness :
    (updateHeartbeat 500 "svc-a-eod" stA).2 = Except.ok () ∧
    findById (updateHeartbeat 500 "svc-a-eod" stA).1.schedulers "svc-a-eod" =
      some { recA with last_heartbeat := some 500, updated_at := 500 } ∧
    (updateHeartbeat 500 "svc-a-eod" stA).1.history = stA.history ∧
    ∀ s ∈ stA.schedulers, s.scheduler_id ≠ "svc-a-eod" →
      s ∈ (updateHeartbeat 500 "svc-a-eod" stA).1.schedulers :=
  (claim_C9_heartbeat_frame 500 "svc-a-eod" stA).2 recA rfl

/-- A completed scheduler, for the window-close fixtures. -/
def recDone : Scheduler :=
  { scheduler_id := "svc-a-eod"
    service_name := "Service A"
    job_name := "EOD Processing"
    status := SchedulerStatus.completed
    timestamp := 500
    execution_time_ms := some 15000
    created_at := 0
    updated_at := 500 }

/-- Window-close environment in which the final edit of the held message
throws. -/
def envEditThrows : FinalSummaryEnv :=
  { fetchResult := Except.ok []
    editResult := Except.error ()
    allClearResult := Except.ok () }

/-- Window-close environment in which every external call succeeds and the
one scheduler is completed. -/
def envAllOk : FinalSummaryEnv :=
  { fetchResult := Except.ok [recDone]
    editResult := Except.ok ()
    allClearResult := Except.ok () }

/-- C6 counterexample: a window-close run holding a handle whose final edit
throws ends with the handle still held — the `currentMessageTs = null` reset
sits inside the `try` after the edit, so the thrown edit skips it,
contradicting the claim that every execution ends with the handle cleared. -/
theorem claim_C6_counterexample :
    (sendFinalStatusSummary true envEditThrows (some "1717171717.123456")).handle =
        some "1717171717.123456" ∧
    some "1717171717.123456" ≠ (none : Option String) :=
  ⟨rfl, by simp⟩

/-- C6 (amended): the window-close trigger clears the held handle whenever
its body runs to completion — whatever the all-clear condition and whether a
handle was held — but when the notification service is disabled, or the
record fetch, final edit or all-clear send throws, the handle is left
unchanged (the thrown cases are exhibited by the counterexample). -/
theorem claim_C6_handle_cleared (env : FinalSummaryEnv) (handle : Option String)
    (l : List Scheduler)
    (hfetch : env.fetchResult = Except.ok l)
    (hedit : env.editResult = Except.ok ())
    (hclear : env.allClearResult = Except.ok ()) :
    (sendFinalStatusSummary true env handle).handle = none ∧
    (∀ env' : FinalSummaryEnv, ∀ h' : Option String,
      (sendFinalStatusSummary false env' h').handle = h') := by
  constructor
  · simp only [sendFinalStatusSummary, Bool.not_true, Bool.false_eq_true,
      if_false, hfetch]
    cases handle <;>
      · simp only [hedit]
        cases hcond : (l.all (fun s => s.isCompleted) && decide (0 < l.length)) <;>
          simp [hcond, hclear]
  · intro env' h'
    simp [sendFinalStatusSummary]

/-- Witness for C6 (amended) at a concrete succeeding environment. -/
theorem claim_C6_witness :
    (sendFinalStatusSummary true envAllOk (some "1717171717.123456")).handle = none ∧
    (∀ env' : FinalSummaryEnv, ∀ h' : Option String,
      (sendFinalStatusSummary false env' h').handle = h') :=
  claim_C6_handle_cleared envAllOk (some "1717171717.123456") [recDone] rfl rfl rfl

/-- C7: when the window-close trigger is enabled, the fetch returns `l` and
the final edit does not throw, the all-clear summary send is invoked iff `l`
is non-empty and every scheduler in it is `completed`; in particular it is
never invoked for an empty list. -/
theorem claim_C7_allclear_iff (env : FinalSummaryEnv) (handle : Option String)
    (l : List Scheduler)
    (hfetch : env.fetchResult = Except.ok l)
    (hedit : env.editResult = Except.ok ()) :
    ((sendFinalStatusSummary true env handle).allClearInvoked = true ↔
      l ≠ [] ∧ ∀ s ∈ l, s.status = SchedulerStatus.completed) := by
  have hchar : (l.all (fun s => s.isCompleted) && decide (0 < l.length)) = true ↔
      l ≠ [] ∧ ∀ s ∈ l, s.status = SchedulerStatus.completed := by
    rw [Bool.and_eq_true, List.all_eq_true]
    simp only [Scheduler.isCompleted, beq_iff_eq, decide_eq_true_eq]
    constructor
    · rintro ⟨hall, hpos⟩
      exact ⟨List.ne_nil_of_length_pos hpos, hall⟩
    · rintro ⟨hne, hall⟩
      exact ⟨hall, List.length_pos.2 hne⟩
  rw [← hchar]
  simp only [sendFinalStatusSummary, Bool.not_true, Bool.false_eq_true,
    if_false, hfetch]
  cases handle <;>
    · simp only [hedit]
      cases hcond : (l.all (fun s => s.isCompleted) && decide (0 < l.length)) <;>
        cases hac : env.allClearResult <;> simp [hcond, hac]

/-- Witness for C7: with one completed scheduler the all-clear send is
invoked. -/
theorem claim_C7_witness :
    (sendFinalStatusSummary true envAllOk none).allClearInvoked = true :=
  (claim_C7_allclear_iff envAllOk none [recDone] rfl rfl).2
    ⟨by simp, by intro s hs; simp only [List.mem_singleton] at hs; subst hs; rfl⟩

/-- A scheduler whose `execution_time_ms` is present but `0`. -/
def recZeroExec : Scheduler :=
  { scheduler_id := "svc-z"
    service_name := "Service Z"
    job_name := "Zero Job"
    status := SchedulerStatus.completed
    timestamp := 0
    execution_time_ms := some 0
    created_at := 0
    updated_at := 0 }

/-- The execution-time context block appears among a scheduler's row blocks
iff its `execution_time_ms` is present AND non-zero (the guard is the JS
truthiness test `if (scheduler.execution_time_ms)`). -/
theorem execNote_mem_rowBlocks (s : Scheduler) (ms : Nat) :
    Block.executionTimeNote ms ∈ schedulerRowBlocks s ↔
      s.execution_time_ms = some ms ∧ ms ≠ 0 := by
  unfold schedulerRowBlocks
  cases h : s.execution_time_ms with
  | none => simp
  | some v =>
    by_cases hz : v = 0
    · subst hz
      simp only [beq_self_eq_true, if_true, List.mem_singleton]
      constructor
      · intro hmem
        cases hmem
      · rintro ⟨hv, hne⟩
        exact absurd (Option.some.inj hv).symm hne
    · dsimp only
      rw [if_neg (by simpa using hz)]
      simp only [List.mem_cons, List.mem_singleton]
      constructor
      · rintro (hmem | hmem | hmem)
        · cases hmem
        · cases hmem
          exact ⟨rfl, hz⟩
        · cases hmem
      · rintro ⟨hv, hne⟩
        cases Option.some.inj hv
        exact Or.inr (Or.inl rfl)

/-- C10 counterexample: a scheduler whose `execution_time_ms` is present with
value `0` gets NO execution-time annotation block — `0` is falsy in the
rendering guard — contradicting the claim that presence alone (including 0)
produces the annotation. -/
theorem claim_C10_counterexample :
    recZeroExec.execution_time_ms = some 0 ∧
    ∀ ms : Nat, Block.executionTimeNote ms ∉ buildStatusTableBlocks [recZeroExec] 0 := by
  refine ⟨rfl, ?_⟩
  intro ms
  simp [buildStatusTableBlocks, schedulerRowBlocks, recZeroExec, buildStatusSummary]

/-- C10 (amended): the rendered status table contains an execution-time
annotation block with value `ms` iff some scheduler in the input list has
`execution_time_ms` present with that value AND the value is non-zero; an
absent value — and likewise a present value of `0` — yields no annotation. -/
theorem claim_C10_annotation_iff (schedulers : List Scheduler) (ts : Millis)
    (ms : Nat) :
    Block.executionTimeNote ms ∈ buildStatusTableBlocks schedulers ts ↔
      ∃ s ∈ schedulers, s.execution_time_ms = some ms ∧ ms ≠ 0 := by
  simp [buildStatusTableBlocks, List.mem_flatten, execNote_mem_rowBlocks]

end SchedulerMonitoring
